import Mathlib

/-!
Verification of the prompt-generation collaboration core: the team-lead
decision classifier, the orchestration state machine, the response
validator scoring, the conversation ledger (search / export / import) and
the final-artifact extractor, shallowly embedded from the Python sources
in `src/backend/src/agents/`.

Strings are modelled as `List Char`; Python `str.lower()` as a
character-wise `Char.toLower`, Python's substring operator `in` as the
executable `strIn`, and Python `str.strip()` / `str.split` by the
corresponding list operations on the six ASCII whitespace characters.
-/

namespace PromptGen

/-- Strings of the embedded program, as character lists. -/
abbrev Str := List Char

/-- Python `str.lower()` (adequate for the ASCII keyword lists involved). -/
def pyLower (s : Str) : Str := s.map Char.toLower

/-- The six characters Python treats as whitespace for `strip`/`split`. -/
def pyIsSpace (c : Char) : Bool :=
  c = ' ' ∨ c = '\t' ∨ c = '\n' ∨ c = '\r' ∨ c = '\x0b' ∨ c = '\x0c'

/-- Python `str.strip()`: drop whitespace from both ends. -/
def pyStrip (s : Str) : Str :=
  ((s.dropWhile pyIsSpace).reverse.dropWhile pyIsSpace).reverse

/-- Python's substring test `needle in hay`, executable. -/
def strIn (needle hay : Str) : Bool :=
  needle.isPrefixOf hay ||
    match hay with
    | [] => false
    | _ :: t => strIn needle t

/-- `strIn` agrees with the infix (contiguous-sublist) relation. -/
theorem strIn_iff_contiguous_sub (needle hay : Str) : strIn needle hay = true ↔ needle <:+: hay := by
  induction hay with
  | nil =>
    rw [strIn]
    cases needle <;> simp [List.isPrefixOf]
  | cons c t ih =>
    rw [strIn]
    simp [List.infix_cons_iff, List.isPrefixOf_iff_prefix, ih]

/-- Message categories, from `interfaces.MessageType`. -/
inductive MessageType where
  | requirement
  | solution
  | technicalSolution
  | review
  | approval
  | rejection
  | clarification
  | question
  | err
deriving DecidableEq, Repr

/-- Agent roles, from `interfaces.AgentType`. -/
inductive AgentType where
  | productManager
  | technicalDeveloper
  | teamLead
deriving DecidableEq, Repr

/-- Approval indicator keywords of `TeamLeadAgent._analyze_decision_type`. -/
def approval_indicators : List Str :=
  ["approve".data, "approved".data, "approval".data, "accept".data, "accepted".data,
   "good to go".data, "ready for implementation".data, "implement".data, "proceed".data,
   "move forward".data, "excellent".data, "perfect".data, "well done".data, "great job".data]

/-- Rejection indicator keywords of `TeamLeadAgent._analyze_decision_type`. -/
def rejection_indicators : List Str :=
  ["reject".data, "rejected".data, "rejection".data, "not ready".data, "needs work".data,
   "inadequate".data, "insufficient".data, "missing".data, "incomplete".data, "unclear".data,
   "rethink".data, "redo".data, "start over".data, "major issues".data]

/-- Question indicator keywords of `TeamLeadAgent._analyze_decision_type`. -/
def question_indicators : List Str :=
  ["question".data, "clarify".data, "explain".data, "elaborate".data, "more detail".data,
   "unclear".data, "confusing".data, "what".data, "how".data, "why".data, "when".data,
   "where".data]

/-- Count of indicators occurring as substrings of the (lowered) content:
`sum(1 for indicator in indicators if indicator in content_lower)`. -/
def countMatches (indicators : List Str) (contentLower : Str) : Nat :=
  indicators.countP (fun kw => strIn kw contentLower)

/-- `TeamLeadAgent._analyze_decision_type(content, context)`. -/
def analyzeDecisionType (content : Str) (currentIteration maxIterations : Int) : MessageType :=
  let contentLower := pyLower content
  let approvalCount := countMatches approval_indicators contentLower
  let rejectionCount := countMatches rejection_indicators contentLower
  let questionCount := countMatches question_indicators contentLower
  if rejectionCount > approvalCount then .rejection
  else if approvalCount > rejectionCount ∧ approvalCount > 0 then .approval
  else if questionCount > 2 ∨ currentIteration < maxIterations - 1 then .question
  else .review

/-- Strong rejection keywords of `TeamLeadAgent._force_final_decision`. -/
def strong_rejection_indicators : List Str :=
  ["cannot approve".data, "strongly reject".data, "major issues".data,
   "fundamental problems".data, "completely inadequate".data, "not acceptable".data,
   "serious concerns".data]

/-- `TeamLeadAgent._force_final_decision(content, context)`: the forced
terminal decision used in the last allowed iteration. -/
def forceFinalDecision (content : Str) : MessageType :=
  if strong_rejection_indicators.any (fun kw => strIn kw (pyLower content)) then
    .rejection
  else
    .approval

/-- C1: the forced terminal decision (used when
`current_iteration == max_iterations - 1`) is REJECTION exactly when some
strong-rejection keyword occurs case-insensitively in the text, and
APPROVAL for every other text. -/
theorem c1_force_final_decision_strong_keywords (content : Str) :
    forceFinalDecision content =
      if ∃ kw ∈ strong_rejection_indicators, kw <:+: pyLower content then
        MessageType.rejection
      else
        MessageType.approval := by
  unfold forceFinalDecision
  by_cases h : ∃ kw ∈ strong_rejection_indicators, kw <:+: pyLower content
  · simp only [if_pos h]
    rw [if_pos]
    rw [List.any_eq_true]
    obtain ⟨kw, hmem, hinf⟩ := h
    exact ⟨kw, hmem, (strIn_iff_contiguous_sub _ _).mpr hinf⟩
  · simp only [if_neg h]
    rw [if_neg]
    rw [List.any_eq_true]
    rintro ⟨kw, hmem, hin⟩
    exact h ⟨kw, hmem, (strIn_iff_contiguous_sub _ _).mp hin⟩

/-- C2 counterexample: for the text `"ok"` (zero approval, rejection and
question keyword matches) at iteration 0 of 5, the classifier returns
QUESTION, not the REVIEW the claim requires for question-count ≤ 2. -/
theorem c2_counterexample_question_default :
    countMatches approval_indicators (pyLower "ok".data) = 0 ∧
    countMatches rejection_indicators (pyLower "ok".data) = 0 ∧
    countMatches question_indicators (pyLower "ok".data) = 0 ∧
    (0 : Int) < 5 - 1 ∧
    analyzeDecisionType "ok".data 0 5 = MessageType.question ∧
    MessageType.question ≠ MessageType.review := by
  refine ⟨by decide, by decide, by decide, by decide, by decide, by decide⟩

/-- C2 amended: for texts with zero approval and zero rejection matches,
the classifier returns QUESTION when the question count exceeds 2 OR
`current_iteration < max_iterations - 1`, and REVIEW only otherwise; in
particular below the final iteration it always returns QUESTION. -/
theorem c2_zero_signal_classification (content : Str) (it mx : Int)
    (ha : countMatches approval_indicators (pyLower content) = 0)
    (hr : countMatches rejection_indicators (pyLower content) = 0) :
    analyzeDecisionType content it mx =
      if countMatches question_indicators (pyLower content) > 2 ∨ it < mx - 1 then
        MessageType.question
      else
        MessageType.review := by
  simp only [analyzeDecisionType, ha, hr]
  simp

/-- C2 amended, witnessed at the text `"ok"` with iteration 0 of 5. -/
theorem c2_zero_signal_witness :
    analyzeDecisionType "ok".data 0 5 =
      if countMatches question_indicators (pyLower "ok".data) > 2 ∨ (0 : Int) < 5 - 1 then
        MessageType.question
      else
        MessageType.review :=
  c2_zero_signal_classification "ok".data 0 5 (by decide) (by decide)

/-- Orchestration states, from `orchestration_engine.OrchestrationState`. -/
inductive OrchestrationState where
  | initializing
  | requirementsAnalysis
  | technicalDesign
  | teamLeadReview
  | feedbackProcessing
  | finalApproval
  | completed
  | failed
deriving DecidableEq, Repr

/-- `AgentOrchestrationEngine._determine_next_state(session_data, agent_response)`,
as a function of the session state, the response's message type, and the
iteration counters it reads from the session. -/
def determineNextState (currentState : OrchestrationState) (messageType : MessageType)
    (currentIteration maxIterations : Int) : OrchestrationState :=
  if messageType = .approval then
    if currentState = .teamLeadReview then .completed else .teamLeadReview
  else if messageType = .rejection then
    .feedbackProcessing
  else if messageType = .question then
    currentState
  else
    if currentState = .requirementsAnalysis then .technicalDesign
    else if currentState = .technicalDesign then .teamLeadReview
    else if currentState = .feedbackProcessing then
      if currentIteration ≥ maxIterations - 1 then .finalApproval else .teamLeadReview
    else currentState

/-- Transition function as the spec's §4.5 words state it, for comparison
with `determineNextState`. -/
def nextStateSpec (currentState : OrchestrationState) (messageType : MessageType)
    (currentIteration maxIterations : Int) : OrchestrationState :=
  match messageType with
  | .approval => if currentState = .teamLeadReview then .completed else .teamLeadReview
  | .rejection => .feedbackProcessing
  | .question => currentState
  | _ =>
    match currentState with
    | .requirementsAnalysis => .technicalDesign
    | .technicalDesign => .teamLeadReview
    | .feedbackProcessing =>
      if currentIteration ≥ maxIterations - 1 then .finalApproval else .teamLeadReview
    | s => s

/-- C3: the engine's transition function agrees with the specified table:
APPROVAL completes from TEAM_LEAD_REVIEW and otherwise moves there,
REJECTION moves to FEEDBACK_PROCESSING, QUESTION keeps the state, and the
normal progression advances REQUIREMENTS_ANALYSIS → TECHNICAL_DESIGN →
TEAM_LEAD_REVIEW, sends FEEDBACK_PROCESSING to FINAL_APPROVAL at the last
iteration and to TEAM_LEAD_REVIEW before it, and fixes all other states. -/
theorem c3_next_state_transition_table (s : OrchestrationState) (c : MessageType)
    (it mx : Int) :
    determineNextState s c it mx = nextStateSpec s c it mx := by
  cases c <;> cases s <;> simp [determineNextState, nextStateSpec]

/-- Issue severities, from `response_validator.ValidationSeverity`. -/
inductive ValidationSeverity where
  | info
  | warning
  | error
  | critical
deriving DecidableEq, Repr

/-- A validation issue, from `response_validator.ValidationIssue` (the
fields the scoring reads). -/
structure ValidationIssue where
  severity : ValidationSeverity
  code : Str
  message : Str
deriving DecidableEq, Repr

/-- The per-severity penalties of
`ResponseValidator._calculate_confidence_score`. -/
def severityPenalty : ValidationSeverity → ℚ
  | .critical => 1/2
  | .error => 1/5
  | .warning => 1/10
  | .info => 1/20

/-- The structure indicators checked by
`ResponseValidator._calculate_confidence_score`. -/
def structural_indicators : List Str :=
  ["##".data, "###".data, "1.".data, "-".data, "*".data]

/-- `ResponseValidator._calculate_confidence_score(issues, content)`. -/
def calculateConfidenceScore (issues : List ValidationIssue) (content : Str) : ℚ :=
  let base := issues.foldl (fun acc issue => acc - severityPenalty issue.severity) 1
  let base := max 0 base
  let contentLength := (pyStrip content).length
  let base := if contentLength > 100 then base + 1/10 else base
  let base := if contentLength > 500 then base + 1/10 else base
  let base := if structural_indicators.any (fun ind => strIn ind content) then base + 1/10
    else base
  min 1 base

/-- The validity computation of `ResponseValidator.validate_response`:
no CRITICAL issues and no ERROR issues. -/
def isValidOf (issues : List ValidationIssue) : Bool :=
  (issues.filter (fun i => decide (i.severity = ValidationSeverity.critical))).length = 0 &&
  (issues.filter (fun i => decide (i.severity = ValidationSeverity.error))).length = 0

/-- Folding penalty subtraction equals subtracting the penalty sum. -/
theorem foldl_sub_penalty (l : List ValidationIssue) (c : ℚ) :
    l.foldl (fun acc issue => acc - severityPenalty issue.severity) c
      = c - ((l.map (fun i => severityPenalty i.severity)).sum) := by
  induction l generalizing c with
  | nil => simp
  | cons i t ih => simp [ih, sub_sub]

/-- C7: validity holds exactly when the issue list has no CRITICAL and no
ERROR issue, and the confidence score is 1 minus the per-issue penalties
(CRITICAL 1/2, ERROR 1/5, WARNING 1/10, INFO 1/20) clamped below at 0,
plus 1/10 bonuses for stripped length > 100, length > 500 and structural
markers, clamped above at 1. -/
theorem c7_validator_confidence_formula (issues : List ValidationIssue) (content : Str) :
    (isValidOf issues = true ↔
      (∀ i ∈ issues, i.severity ≠ ValidationSeverity.critical) ∧
      (∀ i ∈ issues, i.severity ≠ ValidationSeverity.error)) ∧
    calculateConfidenceScore issues content =
      min 1
        (max 0 (1 - ((issues.map (fun i => severityPenalty i.severity)).sum))
          + (if (pyStrip content).length > 100 then 1/10 else 0)
          + (if (pyStrip content).length > 500 then 1/10 else 0)
          + (if structural_indicators.any (fun ind => strIn ind content) then 1/10 else 0)) := by
  constructor
  · simp [isValidOf, List.length_eq_zero, List.filter_eq_nil_iff]
  · simp only [calculateConfidenceScore, foldl_sub_penalty]
    split_ifs <;> ring_nf

/-- Case-insensitive literal match (the literal is given lowercase):
returns the remaining text after the literal, when it matches here. -/
def matchCI : Str → Str → Option Str
  | [], s => some s
  | _ :: _, [] => none
  | l :: lt, c :: ct => if Char.toLower c = l then matchCI lt ct else none

/-- One attempt of the prefix of the extractor's pattern
`#?\s*Final Prompt\s*:?\s*\n?` at the current position; the greedy
quantifiers never need to backtrack here because each is followed by a
non-whitespace requirement, so maximal munch is exact. Returns the suffix
at which the capture group starts. -/
def finalPromptHeaderAt (s : Str) : Option Str :=
  let s1 := match s with | '#' :: rest => rest | _ => s
  let s2 := s1.dropWhile pyIsSpace
  match matchCI "final prompt".data s2 with
  | none => none
  | some s3 =>
    let s4 := s3.dropWhile pyIsSpace
    let s5 := match s4 with | ':' :: rest => rest | _ => s4
    let s6 := s5.dropWhile pyIsSpace
    let s7 := match s6 with | '\n' :: rest => rest | _ => s6
    some s7

/-- `re.search` over the extractor's pattern: the leftmost position whose
pattern prefix matches (the lazy capture with its lookahead always
succeeds afterwards, since `$` matches at the end of the text). -/
def searchFinalPrompt : Str → Option Str
  | [] => finalPromptHeaderAt []
  | s@(_ :: rest) =>
    match finalPromptHeaderAt s with
    | some r => some r
    | none => searchFinalPrompt rest

/-- The lookahead `(?=\n#|\n\n|$)` of the extractor's pattern; `$` without
MULTILINE matches at the end of the text or just before a final newline. -/
def lookaheadStop : Str → Bool
  | [] => true
  | ['\n'] => true
  | '\n' :: '#' :: _ => true
  | '\n' :: '\n' :: _ => true
  | _ => false

/-- The lazy capture group `(.*?)` with DOTALL: the shortest text up to a
position where the lookahead holds. -/
def lazyCapture : Str → Str
  | [] => []
  | c :: rest => if lookaheadStop (c :: rest) then [] else c :: lazyCapture rest

/-- Python `content.split('\n')`: split at every newline, keeping empties. -/
def splitOnNl : Str → List Str
  | [] => [[]]
  | '\n' :: rest => [] :: splitOnNl rest
  | c :: rest =>
    match splitOnNl rest with
    | [] => [[c]]
    | l :: ls => (c :: l) :: ls

/-- Python `'\n'.join(lines)`. -/
def joinNl : List Str → Str
  | [] => []
  | [l] => l
  | l :: ls => l ++ '\n' :: joinNl ls

/-- The fallback stoplist of `AgentOrchestrationEngine._extract_final_prompt`
(the fourth entry is the source's literal three-character mojibake of a
check-mark). -/
def skip_headers : List Str :=
  ["#".data, "approval".data, "approved".data, "âœ…".data, "summary".data]

/-- The body semantics of
`AgentOrchestrationEngine._extract_final_prompt(approval_content)`, i.e.
what the statements compute once the global names they mention resolve.
The module never imports `re`, so the real callable is
`extractFinalPromptRun` below, which raises before this code can run. -/
def extractFinalPrompt (content : Str) : Str :=
  match searchFinalPrompt content with
  | some afterHeader => pyStrip (lazyCapture afterHeader)
  | none =>
    let coreLines := ((splitOnNl content).map pyStrip).filter
      (fun line => !line.isEmpty &&
        !(skip_headers.any (fun h => strIn h (pyLower line))))
    if coreLines ≠ [] then joinNl coreLines else content

/-- A raised Python exception, as far as the embedding needs it. -/
inductive PyError where
  | nameError (name : Str)
deriving DecidableEq, Repr

/-- Evaluating a global name against a module's bindings: Python raises
`NameError` when the name is absent. -/
def lookupGlobal (globals : List Str) (name : Str) : Except PyError Unit :=
  if globals.any (fun g => decide (g = name)) then .ok () else .error (.nameError name)

/-- The global names `orchestration_engine.py` binds at module level:
its imports (lines 5 to 23) plus its own definitions. Neither `re` nor
`Message` is among them. -/
def engineGlobals : List Str :=
  ["asyncio".data, "json".data, "logging".data, "Dict".data, "Any".data, "List".data,
   "Optional".data, "Tuple".data, "datetime".data, "Enum".data, "AgentContext".data,
   "AgentResponse".data, "MessageType".data, "AgentType".data,
   "ProductManagerAgent".data, "TechnicalDeveloperAgent".data, "TeamLeadAgent".data,
   "ConversationManager".data, "AgentStateTracker".data, "GLMApiClient".data,
   "logger".data, "OrchestrationState".data, "AgentOrchestrationEngine".data]

/-- `_extract_final_prompt` as actually callable: its first statement
evaluates the global name `re`, which the module never imports, so every
call raises `NameError` before the search; only with the name bound would
the body semantics `extractFinalPrompt` run. -/
def extractFinalPromptRun (content : Str) : Except PyError Str :=
  match lookupGlobal engineGlobals "re".data with
  | .error e => .error e
  | .ok _ => .ok (extractFinalPrompt content)

/-- Even under the body semantics (import repaired), the non-empty input
`"Final Prompt"` matches the pattern with an empty capture and the result
is the empty string. -/
theorem extractFinalPrompt_empty_capture :
    extractFinalPrompt "Final Prompt".data = [] ∧ "Final Prompt".data ≠ ([] : Str) :=
  ⟨by decide, by decide⟩

/-- A joined line list starting with a non-empty line is non-empty. -/
theorem joinNl_ne_nil (l : Str) (ls : List Str) (hl : l ≠ []) :
    joinNl (l :: ls) ≠ [] := by
  cases ls with
  | nil => simpa [joinNl] using hl
  | cons m ms => simp [joinNl]

/-- Under the body semantics, the fallback path (no "Final Prompt"
section found) never yields an empty string for non-empty input: it joins
the surviving stripped lines, and returns the original text when none
survive. -/
theorem extractFinalPrompt_fallback_nonempty (content : Str)
    (hne : content ≠ []) (hsearch : searchFinalPrompt content = none) :
    extractFinalPrompt content ≠ [] := by
  unfold extractFinalPrompt
  rw [hsearch]
  cases hc : ((splitOnNl content).map pyStrip).filter
      (fun line => !line.isEmpty &&
        !(skip_headers.any (fun h => strIn h (pyLower line)))) with
  | nil => simpa [hc] using hne
  | cons l ls =>
    have hmem : l ∈ ((splitOnNl content).map pyStrip).filter
        (fun line => !line.isEmpty &&
          !(skip_headers.any (fun h => strIn h (pyLower line)))) := by
      rw [hc]; exact List.mem_cons_self l ls
    have hl : l ≠ [] := by
      have := (List.mem_filter.mp hmem).2
      simp only [Bool.and_eq_true, Bool.not_eq_true'] at this
      simpa [List.isEmpty_iff] using this.1
    simpa [hc] using joinNl_ne_nil l ls hl

/-- C10 counterexample: on the non-empty input `"hello"` the extractor
does not return any value, let alone a non-empty one: it raises
`NameError` on the unbound global `re`. -/
theorem c10_counterexample_nameerror :
    "hello".data ≠ ([] : Str) ∧
    extractFinalPromptRun "hello".data = Except.error (PyError.nameError "re".data) :=
  ⟨by decide, rfl⟩

/-- C10 amended: every call to the extractor raises `NameError` (the
module never imports `re`), returning nothing for any input; under the
body semantics with the import repaired, the fallback path would never
yield an empty string for non-empty input (if stripping leaves nothing
the original text is returned), though the regex path could still yield
the empty string on input `"Final Prompt"`. -/
theorem c10_extractor_never_returns (content : Str) :
    extractFinalPromptRun content = Except.error (PyError.nameError "re".data) ∧
    (content ≠ [] → searchFinalPrompt content = none → extractFinalPrompt content ≠ []) := by
  refine ⟨rfl, ?_⟩
  intro h1 h2
  exact extractFinalPrompt_fallback_nonempty content h1 h2

/-- C10 amended, witnessed at the input `"hello"`. -/
theorem c10_extractor_witness :
    extractFinalPromptRun "hello".data = Except.error (PyError.nameError "re".data) ∧
    extractFinalPrompt "hello".data ≠ [] :=
  ⟨(c10_extractor_never_returns "hello".data).1,
   (c10_extractor_never_returns "hello".data).2 (by decide) (by decide)⟩

/-- A stored per-agent output record, as written into
`session_data["agent_outputs"]` by the engine. -/
structure AgentOutput where
  content : Str
  messageType : MessageType
  confidence : ℚ
  clarifyingQuestions : List Str
  timestamp : Nat
deriving DecidableEq, Repr

/-- A conversation-history entry, from `interfaces.Message` as appended by
`AgentOrchestrationEngine._add_to_conversation_history`. -/
structure HistoryMessage where
  id : Int
  agentType : AgentType
  content : Str
  messageType : MessageType
  timestamp : Nat
deriving DecidableEq, Repr

/-- The engine's per-session record `session_data` (timestamps are
abstract instants supplied by the caller of each step; `error` is the
`"error"` entry the `process_user_input` exception handler writes). -/
structure SessionData where
  sessionId : Str
  userRequirements : Str
  maxIterations : Int
  currentIteration : Int
  state : OrchestrationState
  createdAt : Nat
  agentOutputs : List (Str × AgentOutput)
  conversationHistory : List HistoryMessage
  finalPrompt : Option Str
  status : Str
  supplementaryInputs : List Str
  completedAt : Option Nat
  error : Option PyError
deriving DecidableEq, Repr

/-- An agent response as consumed by the engine (the classification of the
language model's text is an external input to the state machine). -/
structure AgentResponseData where
  content : Str
  messageType : MessageType
  confidence : ℚ
  requiresUserInput : Bool
  clarifyingQuestions : List Str
deriving DecidableEq, Repr

/-- Agent key strings used in `session_data["agent_outputs"]`. -/
def pmName : Str := "product_manager".data

/-- Agent key string for the technical developer. -/
def devName : Str := "technical_developer".data

/-- Agent key string for the team lead. -/
def tlName : Str := "team_lead".data

/-- Python dict read `outs.get(k)` on an insertion-ordered record. -/
def lookupOutput (outs : List (Str × AgentOutput)) (k : Str) : Option AgentOutput :=
  (outs.find? (fun p => decide (p.1 = k))).map (fun p => p.2)

/-- Python dict write `outs[k] = v`: overwrite in place, else append. -/
def storeOutput (outs : List (Str × AgentOutput)) (k : Str) (v : AgentOutput) :
    List (Str × AgentOutput) :=
  if outs.any (fun p => decide (p.1 = k)) then
    outs.map (fun p => if p.1 = k then (k, v) else p)
  else outs ++ [(k, v)]

/-- `AgentOrchestrationEngine._determine_next_agent(session_data)`, by the
agent's key string; FEEDBACK_PROCESSING routes on whether the last team
lead feedback mentions "requirements". -/
def determineNextAgent (sd : SessionData) : Option Str :=
  if sd.state = .requirementsAnalysis then some pmName
  else if sd.state = .technicalDesign then some devName
  else if sd.state = .teamLeadReview then some tlName
  else if sd.state = .feedbackProcessing then
    match lookupOutput sd.agentOutputs tlName with
    | some out =>
      if out.content ≠ [] ∧ strIn "requirements".data (pyLower out.content) then some pmName
      else some devName
    | none => some devName
  else none

/-- The agent type of an agent key (`_get_agent_name` inverted). -/
def agentTypeOfName (name : Str) : AgentType :=
  if name = pmName then .productManager
  else if name = devName then .technicalDeveloper
  else .teamLead

/-- The output-store half of the recording block shared by
`process_user_input` and `continue_without_input`:
`session_data["agent_outputs"][agent_name] = {...}`. -/
def storeAgentOutput (sd : SessionData) (name : Str) (resp : AgentResponseData) (t : Nat) :
    SessionData :=
  let out : AgentOutput :=
    { content := resp.content, messageType := resp.messageType,
      confidence := resp.confidence, clarifyingQuestions := resp.clarifyingQuestions,
      timestamp := t }
  { sd with agentOutputs := storeOutput sd.agentOutputs name out }

/-- `AgentOrchestrationEngine._add_to_conversation_history`: the callable
expression `Message(...)` first evaluates the global name `Message`, which
the module never imports, so every call raises `NameError` before the
append; with the name bound it would append a history message with id
`len + 1`. -/
def addHistoryRun (sd : SessionData) (agentType : AgentType) (resp : AgentResponseData)
    (t : Nat) : Except PyError SessionData :=
  match lookupGlobal engineGlobals "Message".data with
  | .error e => .error e
  | .ok _ =>
    .ok { sd with conversationHistory := sd.conversationHistory ++
      [{ id := (sd.conversationHistory.length : Int) + 1, agentType := agentType,
         content := resp.content, messageType := resp.messageType, timestamp := t }] }

/-- The content of the stored team-lead output, `""` when absent
(`_get_last_team_lead_feedback` and the `.get` chain in finalization). -/
def teamLeadContent (sd : SessionData) : Str :=
  match lookupOutput sd.agentOutputs tlName with
  | some out => out.content
  | none => []

/-- `AgentOrchestrationEngine._finalize_session(session_id)`: the prompt
extraction comes first and raises, so the status, state, final-prompt and
completion-timestamp writes that follow it never execute. -/
def finalizeSessionRun (sd : SessionData) (t : Nat) : Except PyError SessionData :=
  match extractFinalPromptRun (teamLeadContent sd) with
  | .error e => .error e
  | .ok fp =>
    .ok { sd with
      status := "completed".data,
      state := .completed,
      finalPrompt := some fp,
      completedAt := some t }

/-- The body of `process_user_input` after the supplementary-input update,
including its exception handler: on any raise, the handler sets status to
`"failed"`, records the error, and re-raises (the raised error is the
second component). The post-append happy path is written as the source
has it, though the `NameError` at the history append keeps it dead. -/
def userInputTurnRun (sd : SessionData) (resp : AgentResponseData) (t : Nat) :
    SessionData × Option PyError :=
  match determineNextAgent sd with
  | none =>
    match finalizeSessionRun sd t with
    | .error e => ({ sd with status := "failed".data, error := some e }, some e)
    | .ok sd' => (sd', none)
  | some name =>
    let sd1 := storeAgentOutput sd name resp t
    match addHistoryRun sd1 (agentTypeOfName name) resp t with
    | .error e => ({ sd1 with status := "failed".data, error := some e }, some e)
    | .ok sd2 =>
      let nextState := determineNextState sd2.state resp.messageType
        sd2.currentIteration sd2.maxIterations
      let sd3 := { sd2 with state := nextState }
      let sd4 := if resp.messageType = .approval then
          { sd3 with currentIteration := sd3.currentIteration + 1 }
        else sd3
      let sd5 := { sd4 with status :=
          if resp.requiresUserInput then "waiting_for_user_input".data
          else "processing".data }
      if nextState = .completed then
        match finalizeSessionRun sd5 t with
        | .error e => ({ sd5 with status := "failed".data, error := some e }, some e)
        | .ok sd6 => (sd6, none)
      else (sd5, none)

/-- `AgentOrchestrationEngine.process_user_input(session_id, user_input,
supplementary_inputs)`, with the chosen agent's response supplied as an
input; an empty supplementary list is falsy in Python, so it appends the
user input instead. -/
def processUserInputRun (sd : SessionData) (userInput : Str) (suppl : Option (List Str))
    (resp : AgentResponseData) (t : Nat) : SessionData × Option PyError :=
  userInputTurnRun
    { sd with supplementaryInputs := sd.supplementaryInputs ++
        (match suppl with
         | some (x :: xs) => x :: xs
         | _ => [userInput]) }
    resp t

/-- `AgentOrchestrationEngine.continue_without_input(session_id)`, with
the chosen agent's response supplied as an input; its exception handler
only logs and re-raises, writing nothing to the session. -/
def continueWithoutInputRun (sd : SessionData) (resp : AgentResponseData) (t : Nat) :
    SessionData × Option PyError :=
  match determineNextAgent sd with
  | none =>
    match finalizeSessionRun sd t with
    | .error e => (sd, some e)
    | .ok sd' => (sd', none)
  | some name =>
    let sd1 := storeAgentOutput sd name resp t
    match addHistoryRun sd1 (agentTypeOfName name) resp t with
    | .error e => (sd1, some e)
    | .ok sd2 =>
      let nextState := determineNextState sd2.state resp.messageType
        sd2.currentIteration sd2.maxIterations
      let sd3 := { sd2 with state := nextState }
      let sd4 := { sd3 with status :=
          if resp.requiresUserInput then "waiting_for_user_input".data
          else if nextState = .completed then "completed".data
          else "processing".data }
      if nextState = .completed then
        match finalizeSessionRun sd4 t with
        | .error e => (sd4, some e)
        | .ok sd5 => (sd5, none)
      else (sd4, none)

/-- `AgentOrchestrationEngine.start_prompt_generation_session`, with the
product manager's initial response supplied as an input; the session is
registered and partially mutated before the history append raises, and
the except handler only re-raises. -/
def startSessionRun (userRequirements sessionId : Str) (maxIterations : Int)
    (pmResp : AgentResponseData) (t : Nat) : SessionData × Option PyError :=
  let sd : SessionData := {
    sessionId := sessionId, userRequirements := userRequirements,
    maxIterations := maxIterations, currentIteration := 0,
    state := .initializing, createdAt := t, agentOutputs := [],
    conversationHistory := [], finalPrompt := none, status := "active".data,
    supplementaryInputs := [], completedAt := none, error := none }
  let sd := { sd with state := .requirementsAnalysis }
  let sd := storeAgentOutput sd pmName pmResp t
  match addHistoryRun sd .productManager pmResp t with
  | .error e => (sd, some e)
  | .ok sd' =>
    if pmResp.requiresUserInput then
      ({ sd' with
         status := "waiting_for_user_input".data,
         state := .requirementsAnalysis }, none)
    else
      ({ sd' with state := .technicalDesign }, none)

/-- One external operation on a session: submit user input, continue
without input, or query status (`get_session_status` only reads). -/
inductive EngineStep where
  | userInput (input : Str) (suppl : Option (List Str)) (resp : AgentResponseData) (t : Nat)
  | continueNoInput (resp : AgentResponseData) (t : Nat)
  | statusQuery

/-- Apply one engine operation to the stored session record (mutations
persist even when the operation raises to its caller). -/
def runStep (sd : SessionData) : EngineStep → SessionData
  | .userInput input suppl resp t => (processUserInputRun sd input suppl resp t).1
  | .continueNoInput resp t => (continueWithoutInputRun sd resp t).1
  | .statusQuery => sd

/-- Apply a sequence of engine operations. -/
def runSteps (sd : SessionData) (steps : List EngineStep) : SessionData :=
  steps.foldl runStep sd

/-- Supplementary-input updates do not affect agent selection. -/
theorem determineNextAgent_suppl (sd : SessionData) (l : List Str) :
    determineNextAgent { sd with supplementaryInputs := l } = determineNextAgent sd := rfl

/-- The history append always raises: `Message` is not among the module
globals. -/
theorem addHistoryRun_eq (sd : SessionData) (a : AgentType) (resp : AgentResponseData)
    (t : Nat) :
    addHistoryRun sd a resp t = .error (.nameError "Message".data) := rfl

/-- Finalization always raises: the prompt extraction evaluates the
unbound global `re` first. -/
theorem finalizeSessionRun_eq (sd : SessionData) (t : Nat) :
    finalizeSessionRun sd t = .error (.nameError "re".data) := rfl

/-- What a user-input turn actually does: with no agent selected it marks
the session failed with the `re` NameError from finalization; with an
agent selected it stores the output, then marks the session failed with
the `Message` NameError from the history append. Either way it raises. -/
theorem userInputTurnRun_eq (sd : SessionData) (resp : AgentResponseData) (t : Nat) :
    userInputTurnRun sd resp t =
      match determineNextAgent sd with
      | none =>
        ({ sd with
           status := "failed".data,
           error := some (PyError.nameError "re".data) },
         some (PyError.nameError "re".data))
      | some name =>
        ({ storeAgentOutput sd name resp t with
           status := "failed".data,
           error := some (PyError.nameError "Message".data) },
         some (PyError.nameError "Message".data)) := by
  cases hda : determineNextAgent sd with
  | none =>
    unfold userInputTurnRun
    rw [hda]
    rfl
  | some name =>
    unfold userInputTurnRun
    rw [hda]
    rfl

/-- What a continue-without-input turn actually does: it raises the same
NameErrors, storing the output when an agent was selected and writing
nothing else. -/
theorem continueWithoutInputRun_eq (sd : SessionData) (resp : AgentResponseData) (t : Nat) :
    continueWithoutInputRun sd resp t =
      match determineNextAgent sd with
      | none => (sd, some (PyError.nameError "re".data))
      | some name =>
        (storeAgentOutput sd name resp t, some (PyError.nameError "Message".data)) := by
  cases hda : determineNextAgent sd with
  | none =>
    unfold continueWithoutInputRun
    rw [hda]
    rfl
  | some name =>
    unfold continueWithoutInputRun
    rw [hda]
    rfl

/-- No engine operation changes the iteration counter or the iteration
budget: the increment at line 231 sits after the history append that
raises. -/
theorem runStep_iteration_frame (sd : SessionData) (st : EngineStep) :
    (runStep sd st).currentIteration = sd.currentIteration ∧
    (runStep sd st).maxIterations = sd.maxIterations := by
  cases st with
  | userInput input suppl resp t =>
    simp only [runStep, processUserInputRun]
    rw [userInputTurnRun_eq, determineNextAgent_suppl]
    cases determineNextAgent sd with
    | none => exact ⟨rfl, rfl⟩
    | some name => exact ⟨rfl, rfl⟩
  | continueNoInput resp t =>
    simp only [runStep]
    rw [continueWithoutInputRun_eq]
    cases determineNextAgent sd with
    | none => exact ⟨rfl, rfl⟩
    | some name => exact ⟨rfl, rfl⟩
  | statusQuery => exact ⟨rfl, rfl⟩

/-- C4: across every sequence of engine operations, `current_iteration`
never decreases (it never changes at all: the APPROVAL increment is dead
code behind the NameError) and never comes to exceed `max_iterations`. -/
theorem c4_iteration_constant_and_bounded (sd : SessionData) (steps : List EngineStep) :
    (runSteps sd steps).currentIteration = sd.currentIteration ∧
    (sd.currentIteration ≤ sd.maxIterations →
      (runSteps sd steps).currentIteration ≤ (runSteps sd steps).maxIterations) := by
  have key : ∀ (s : SessionData) (l : List EngineStep),
      (runSteps s l).currentIteration = s.currentIteration ∧
      (runSteps s l).maxIterations = s.maxIterations := by
    intro s l
    induction l generalizing s with
    | nil => exact ⟨rfl, rfl⟩
    | cons st rest ih =>
      have h1 := runStep_iteration_frame s st
      have h2 := ih (runStep s st)
      simp only [runSteps, List.foldl_cons] at *
      exact ⟨h2.1.trans h1.1, h2.2.trans h1.2⟩
  refine ⟨(key sd steps).1, fun hb => ?_⟩
  rw [(key sd steps).1, (key sd steps).2]
  exact hb

/-- A fixed agent response shape for concrete scenarios. -/
def respOf (mt : MessageType) (content : Str) : AgentResponseData :=
  { content := content, messageType := mt, confidence := 1,
    requiresUserInput := false, clarifyingQuestions := [] }

/-- The session record left behind by a start call (the call itself
raises at the history append, after registering the session in state
REQUIREMENTS_ANALYSIS with the product-manager output stored). -/
def c4StartDemo : SessionData :=
  (startSessionRun "demo requirements".data "s1".data 5
    (respOf .requirement "requirements noted".data) 0).1

/-- C4, witnessed on the started session with an APPROVAL turn applied. -/
theorem c4_iteration_witness :
    (runSteps c4StartDemo
        [EngineStep.userInput "go".data none
          (respOf .approval "approve".data) 1]).currentIteration
      = c4StartDemo.currentIteration ∧
    (runSteps c4StartDemo
        [EngineStep.userInput "go".data none
          (respOf .approval "approve".data) 1]).currentIteration
      ≤ (runSteps c4StartDemo
          [EngineStep.userInput "go".data none
            (respOf .approval "approve".data) 1]).maxIterations :=
  ⟨(c4_iteration_constant_and_bounded c4StartDemo
      [EngineStep.userInput "go".data none (respOf .approval "approve".data) 1]).1,
   (c4_iteration_constant_and_bounded c4StartDemo
      [EngineStep.userInput "go".data none (respOf .approval "approve".data) 1]).2
     (by decide)⟩

/-- C5 (code bug): at the failing input — the started session processed
with an APPROVAL-classified response — the `NameError` at the history
append aborts the turn before the iteration update: `process_user_input`
leaves `current_iteration` at 0 (the claim requires 1), marks the session
failed and raises; `continue_without_input` likewise raises with the
counter untouched. -/
theorem c5_nameerror_blocks_iteration :
    (processUserInputRun c4StartDemo "go".data none
        (respOf .approval "approve".data) 1).1.currentIteration = 0 ∧
    (processUserInputRun c4StartDemo "go".data none
        (respOf .approval "approve".data) 1).2
      = some (PyError.nameError "Message".data) ∧
    (processUserInputRun c4StartDemo "go".data none
        (respOf .approval "approve".data) 1).1.status = "failed".data ∧
    (continueWithoutInputRun c4StartDemo
        (respOf .approval "approve".data) 1).1.currentIteration = 0 ∧
    (continueWithoutInputRun c4StartDemo
        (respOf .approval "approve".data) 1).2
      = some (PyError.nameError "Message".data) := by
  refine ⟨by decide, by decide, by decide, by decide, by decide⟩

/-- The stored team-lead output of the hypothetical terminal session. -/
def completedDemoOutput : AgentOutput :=
  { content := "final prompt text".data, messageType := .approval,
    confidence := 1, clarifyingQuestions := [], timestamp := 2 }

/-- A session record in state COMPLETED (no execution of the engine can
produce one — finalization raises first — but the claim quantifies over
terminal sessions, so one is posited). -/
def completedDemoSession : SessionData :=
  { sessionId := "s9".data, userRequirements := "req".data, maxIterations := 3,
    currentIteration := 2, state := .completed, createdAt := 0,
    agentOutputs := [(tlName, completedDemoOutput)],
    conversationHistory := [], finalPrompt := some "final prompt text".data,
    status := "completed".data, supplementaryInputs := [], completedAt := some 2,
    error := none }

/-- C6 counterexample: on a session whose state is COMPLETED, a further
`process_user_input` call mutates the record: it appends the user input
to `supplementary_inputs` and its exception handler overwrites the status
with `"failed"`. -/
theorem c6_counterexample_terminal_mutation :
    completedDemoSession.state = OrchestrationState.completed ∧
    (processUserInputRun completedDemoSession "extra".data none
        (respOf .review "noted".data) 3).1.status ≠ completedDemoSession.status ∧
    (processUserInputRun completedDemoSession "extra".data none
        (respOf .review "noted".data) 3).1.supplementaryInputs
      ≠ completedDemoSession.supplementaryInputs := by
  refine ⟨by decide, by decide, by decide⟩

/-- C6 amended: once the state is terminal, a status query mutates
nothing and `continue_without_input` leaves the record unchanged (its
NameError propagates before any write), but `process_user_input` appends
the user input to `supplementary_inputs` and overwrites status with
`"failed"`, recording the error — the terminal record is not immutable. -/
theorem c6_terminal_behavior (sd : SessionData)
    (hterm : sd.state = OrchestrationState.completed ∨
      sd.state = OrchestrationState.failed)
    (input : Str) (resp : AgentResponseData) (t : Nat) :
    runStep sd EngineStep.statusQuery = sd ∧
    continueWithoutInputRun sd resp t = (sd, some (PyError.nameError "re".data)) ∧
    processUserInputRun sd input none resp t
      = ({ sd with
           supplementaryInputs := sd.supplementaryInputs ++ [input],
           status := "failed".data,
           error := some (PyError.nameError "re".data) },
         some (PyError.nameError "re".data)) := by
  have hna : determineNextAgent sd = none := by
    rcases hterm with h | h <;> simp [determineNextAgent, h]
  refine ⟨rfl, ?_, ?_⟩
  · rw [continueWithoutInputRun_eq, hna]
  · unfold processUserInputRun
    rw [userInputTurnRun_eq, determineNextAgent_suppl, hna]

/-- C6 amended, witnessed on the posited COMPLETED session. -/
theorem c6_terminal_witness :
    runStep completedDemoSession EngineStep.statusQuery = completedDemoSession ∧
    continueWithoutInputRun completedDemoSession
        (respOf .question "anything more?".data) 3
      = (completedDemoSession, some (PyError.nameError "re".data)) ∧
    processUserInputRun completedDemoSession "extra note".data none
        (respOf .question "anything more?".data) 3
      = ({ completedDemoSession with
           supplementaryInputs :=
             completedDemoSession.supplementaryInputs ++ ["extra note".data],
           status := "failed".data,
           error := some (PyError.nameError "re".data) },
         some (PyError.nameError "re".data)) :=
  c6_terminal_behavior completedDemoSession (by decide) "extra note".data
    (respOf .question "anything more?".data) 3

/-- Conversation roles, from `conversation_manager.ConversationRole`. -/
inductive ConversationRole where
  | user
  | productManager
  | technicalDeveloper
  | teamLead
  | system
deriving DecidableEq, Repr

/-- The string value of a conversation role (`role.value`). -/
def roleValue : ConversationRole → Str
  | .user => "user".data
  | .productManager => "product_manager".data
  | .technicalDeveloper => "technical_developer".data
  | .teamLead => "team_lead".data
  | .system => "system".data

/-- `ConversationRole(s)`: parse a role value, failing on unknown strings. -/
def roleOfValue (s : Str) : Option ConversationRole :=
  if s = "user".data then some .user
  else if s = "product_manager".data then some .productManager
  else if s = "technical_developer".data then some .technicalDeveloper
  else if s = "team_lead".data then some .teamLead
  else if s = "system".data then some .system
  else none

/-- The string value of a message type (`message_type.value`). -/
def mtValue : MessageType → Str
  | .requirement => "requirement".data
  | .solution => "solution".data
  | .technicalSolution => "technical_solution".data
  | .review => "review".data
  | .approval => "approval".data
  | .rejection => "rejection".data
  | .clarification => "clarification".data
  | .question => "question".data
  | .err => "error".data

/-- `MessageType(s)`: parse a message-type value. -/
def mtOfValue (s : Str) : Option MessageType :=
  if s = "requirement".data then some .requirement
  else if s = "solution".data then some .solution
  else if s = "technical_solution".data then some .technicalSolution
  else if s = "review".data then some .review
  else if s = "approval".data then some .approval
  else if s = "rejection".data then some .rejection
  else if s = "clarification".data then some .clarification
  else if s = "question".data then some .question
  else if s = "error".data then some .err
  else none

/-- The string value of an agent type (`agent_type.value`). -/
def agentValue : AgentType → Str
  | .productManager => "product_manager".data
  | .technicalDeveloper => "technical_developer".data
  | .teamLead => "team_lead".data

/-- `AgentType(s)`: parse an agent-type value. -/
def agentOfValue (s : Str) : Option AgentType :=
  if s = "product_manager".data then some .productManager
  else if s = "technical_developer".data then some .technicalDeveloper
  else if s = "team_lead".data then some .teamLead
  else none

/-- `conversation_manager.ConversationMessage` (timestamps are abstract
instants; metadata is a string map). -/
structure ConversationMessage where
  id : Str
  role : ConversationRole
  content : Str
  messageType : MessageType
  timestamp : Nat
  agentType : Option AgentType
  parentId : Option Str
  childrenIds : List Str
  metadata : List (Str × Str)
  turnNumber : Int
  iteration : Int
  isEdited : Bool
  editTimestamp : Option Nat
  editReason : Option Str
deriving DecidableEq, Repr

/-- `conversation_manager.ConversationThread`. -/
structure ConversationThread where
  threadId : Str
  parentThreadId : Option Str
  rootMessageId : Option Str
  messageIds : List Str
  createdAt : Nat
  isActive : Bool
  metadata : List (Str × Str)
deriving DecidableEq, Repr

/-- One entry of the `"messages"` list written by `export_conversation`:
enums are serialized to their string values, timestamps to their (abstract)
ISO form, modelled as the instant itself since `fromisoformat` inverts
`isoformat`. -/
structure ExportedMessage where
  id : Str
  role : Str
  content : Str
  messageType : Str
  timestamp : Nat
  agentType : Option Str
  parentId : Option Str
  childrenIds : List Str
  metadata : List (Str × Str)
  turnNumber : Int
  iteration : Int
  isEdited : Bool
  editTimestamp : Option Nat
  editReason : Option Str
deriving DecidableEq, Repr

/-- One entry of the `"threads"` list written by `export_conversation`. -/
structure ExportedThread where
  threadId : Str
  parentThreadId : Option Str
  rootMessageId : Option Str
  messageIds : List Str
  createdAt : Nat
  isActive : Bool
  metadata : List (Str × Str)
deriving DecidableEq, Repr

/-- The dictionary returned by `export_conversation` (the `"summary"`
entry is derived observability output that `import_conversation` ignores,
so it is not modelled). -/
structure ExportedConversation where
  sessionId : Str
  currentIteration : Int
  currentTurn : Int
  currentThreadId : Option Str
  messages : List ExportedMessage
  threads : List ExportedThread
deriving DecidableEq, Repr

/-- `conversation_manager.ConversationManager` state: messages and threads
are insertion-ordered records, as Python dict values. Derived counters and
the keyword index, rebuilt on import, are not part of the modelled state. -/
structure ConversationManager where
  sessionId : Str
  messages : List ConversationMessage
  threads : List ConversationThread
  currentThreadId : Option Str
  currentIteration : Int
  currentTurn : Int
deriving DecidableEq, Repr

/-- `ConversationManager(session_id)`: a fresh manager. -/
def freshManager (sessionId : Str) : ConversationManager :=
  { sessionId := sessionId, messages := [], threads := [],
    currentThreadId := none, currentIteration := 0, currentTurn := 0 }

/-- Serialize one message for export. -/
def exportMessage (includeMetadata : Bool) (m : ConversationMessage) : ExportedMessage :=
  { id := m.id, role := roleValue m.role, content := m.content,
    messageType := mtValue m.messageType, timestamp := m.timestamp,
    agentType := m.agentType.map agentValue, parentId := m.parentId,
    childrenIds := m.childrenIds,
    metadata := if includeMetadata then m.metadata else [],
    turnNumber := m.turnNumber, iteration := m.iteration,
    isEdited := m.isEdited, editTimestamp := m.editTimestamp,
    editReason := m.editReason }

/-- Serialize one thread for export. -/
def exportThread (includeMetadata : Bool) (th : ConversationThread) : ExportedThread :=
  { threadId := th.threadId, parentThreadId := th.parentThreadId,
    rootMessageId := th.rootMessageId, messageIds := th.messageIds,
    createdAt := th.createdAt, isActive := th.isActive,
    metadata := if includeMetadata then th.metadata else [] }

/-- `ConversationManager.export_conversation(include_metadata)`. -/
def exportConversation (cm : ConversationManager) (includeMetadata : Bool) :
    ExportedConversation :=
  { sessionId := cm.sessionId, currentIteration := cm.currentIteration,
    currentTurn := cm.currentTurn, currentThreadId := cm.currentThreadId,
    messages := cm.messages.map (exportMessage includeMetadata),
    threads := cm.threads.map (exportThread includeMetadata) }

/-- Deserialize one message on import; `None` models the `ValueError` the
enum constructors raise on unknown values. -/
def importMessage (e : ExportedMessage) : Option ConversationMessage :=
  match roleOfValue e.role, mtOfValue e.messageType with
  | some role, some mt =>
    match e.agentType with
    | none =>
      some { id := e.id, role := role, content := e.content, messageType := mt,
             timestamp := e.timestamp, agentType := none, parentId := e.parentId,
             childrenIds := e.childrenIds, metadata := e.metadata,
             turnNumber := e.turnNumber, iteration := e.iteration,
             isEdited := e.isEdited, editTimestamp := e.editTimestamp,
             editReason := e.editReason }
    | some a =>
      match agentOfValue a with
      | some at' =>
        some { id := e.id, role := role, content := e.content, messageType := mt,
               timestamp := e.timestamp, agentType := some at', parentId := e.parentId,
               childrenIds := e.childrenIds, metadata := e.metadata,
               turnNumber := e.turnNumber, iteration := e.iteration,
               isEdited := e.isEdited, editTimestamp := e.editTimestamp,
               editReason := e.editReason }
      | none => none
  | _, _ => none

/-- Python dict write `self.messages[message.id] = message`: overwrite in
place when the id exists, else append. -/
def insertMessage (ms : List ConversationMessage) (m : ConversationMessage) :
    List ConversationMessage :=
  if ms.any (fun x => decide (x.id = m.id)) then
    ms.map (fun x => if x.id = m.id then m else x)
  else ms ++ [m]

/-- Python dict write `self.threads[thread.thread_id] = thread`. -/
def insertThread (ths : List ConversationThread) (th : ConversationThread) :
    List ConversationThread :=
  if ths.any (fun x => decide (x.threadId = th.threadId)) then
    ths.map (fun x => if x.threadId = th.threadId then th else x)
  else ths ++ [th]

/-- Deserialize one thread on import (no enum parsing, always succeeds). -/
def importThread (e : ExportedThread) : ConversationThread :=
  { threadId := e.threadId, parentThreadId := e.parentThreadId,
    rootMessageId := e.rootMessageId, messageIds := e.messageIds,
    createdAt := e.createdAt, isActive := e.isActive, metadata := e.metadata }

/-- Import the exported messages in order into the message store. -/
def importMessages (acc : List ConversationMessage) :
    List ExportedMessage → Option (List ConversationMessage)
  | [] => some acc
  | e :: rest =>
    match importMessage e with
    | none => none
    | some m => importMessages (insertMessage acc m) rest

/-- `ConversationManager.import_conversation(conversation_data)` (the
final `_rebuild_counts_and_indexes` recomputes derived counters that are
not part of the modelled state). -/
def importConversation (cm : ConversationManager) (d : ExportedConversation) :
    Option ConversationManager :=
  let cm := { cm with
    sessionId := d.sessionId,
    currentIteration := d.currentIteration,
    currentTurn := d.currentTurn,
    currentThreadId := d.currentThreadId }
  match importMessages cm.messages d.messages with
  | none => none
  | some msgs =>
    some { cm with
      messages := msgs,
      threads := d.threads.foldl (fun acc e => insertThread acc (importThread e)) cm.threads }

/-- Parsing a serialized role value returns the role. -/
theorem roleOfValue_roleValue (r : ConversationRole) : roleOfValue (roleValue r) = some r := by
  cases r <;> rfl

/-- Parsing a serialized message-type value returns the message type. -/
theorem mtOfValue_mtValue (mt : MessageType) : mtOfValue (mtValue mt) = some mt := by
  cases mt <;> rfl

/-- Parsing a serialized agent-type value returns the agent type. -/
theorem agentOfValue_agentValue (a : AgentType) : agentOfValue (agentValue a) = some a := by
  cases a <;> rfl

/-- Import inverts export on a single message (with metadata included). -/
theorem importMessage_exportMessage (m : ConversationMessage) :
    importMessage (exportMessage true m) = some m := by
  obtain ⟨id, role, content, mt, ts, agentOpt, pid, cids, md, tn, it, ed, ets, er⟩ := m
  cases agentOpt <;>
    simp [exportMessage, importMessage, roleOfValue_roleValue, mtOfValue_mtValue,
      agentOfValue_agentValue]

/-- Importing exported messages with pairwise-distinct ids, disjoint from
the accumulated store, appends them in order. -/
theorem importMessages_export (ms : List ConversationMessage) (acc : List ConversationMessage)
    (hdis : ∀ m ∈ ms, ∀ a ∈ acc, a.id ≠ m.id)
    (hnd : (ms.map (fun m => m.id)).Nodup) :
    importMessages acc (ms.map (exportMessage true)) = some (acc ++ ms) := by
  induction ms generalizing acc with
  | nil => simp [importMessages]
  | cons m rest ih =>
    simp only [List.map_cons, importMessages, importMessage_exportMessage]
    have hins : insertMessage acc m = acc ++ [m] := by
      unfold insertMessage
      rw [if_neg]
      simp only [List.any_eq_true, decide_eq_true_eq, not_exists, not_and]
      intro x hx
      exact hdis m (by simp) x hx
    rw [hins, ih (acc ++ [m])]
    · simp
    · intro m' hm' a ha
      rcases List.mem_append.mp ha with ha | ha
      · exact hdis m' (by simp [hm']) a ha
      · have : a = m := by simpa using ha
        subst this
        simp only [List.map_cons, List.nodup_cons] at hnd
        intro hcontra
        exact hnd.1 (hcontra ▸ List.mem_map_of_mem (fun x => x.id) hm')
    · simp only [List.map_cons, List.nodup_cons] at hnd
      exact hnd.2

/-- C8: exporting a conversation (with metadata) and importing the result
into a fresh manager reproduces the identical ordered message sequence —
same ids, contents, categories, turn numbers and all other fields — given
the message ids are pairwise distinct (as the uuid4 ids of `add_message`
are). -/
theorem c8_export_import_roundtrip (cm : ConversationManager) (sid : Str)
    (hnd : (cm.messages.map (fun m => m.id)).Nodup) :
    ∃ cm2, importConversation (freshManager sid) (exportConversation cm true) = some cm2 ∧
      cm2.messages = cm.messages := by
  unfold importConversation exportConversation freshManager
  simp only []
  rw [importMessages_export cm.messages [] (by simp) hnd]
  exact ⟨_, rfl, by simp⟩

/-- A concrete two-message conversation for the round-trip witness. -/
def demoConversation : ConversationManager :=
  { sessionId := "sess".data,
    messages :=
      [{ id := "m1".data, role := .productManager, content := "requirements drafted".data,
         messageType := .requirement, timestamp := 1, agentType := some .productManager,
         parentId := none, childrenIds := ["m2".data], metadata := [],
         turnNumber := 1, iteration := 0, isEdited := false, editTimestamp := none,
         editReason := none },
       { id := "m2".data, role := .teamLead, content := "approve".data,
         messageType := .approval, timestamp := 2, agentType := some .teamLead,
         parentId := some "m1".data, childrenIds := [],
         metadata := [("k".data, "v".data)], turnNumber := 2, iteration := 0,
         isEdited := false, editTimestamp := none, editReason := none }],
    threads :=
      [{ threadId := "t1".data, parentThreadId := none, rootMessageId := some "m1".data,
         messageIds := ["m1".data, "m2".data], createdAt := 0, isActive := true,
         metadata := [] }],
    currentThreadId := some "t1".data, currentIteration := 0, currentTurn := 2 }

/-- C8, witnessed on the concrete two-message conversation. -/
theorem c8_roundtrip_witness :
    ∃ cm2, importConversation (freshManager "fresh".data)
        (exportConversation demoConversation true) = some cm2 ∧
      cm2.messages = demoConversation.messages :=
  c8_export_import_roundtrip demoConversation "fresh".data (by decide)

/-- Accumulator for whitespace splitting (current token reversed). -/
def splitWsAux : Str → Str → List Str
  | [], cur => if cur.isEmpty then [] else [cur.reverse]
  | c :: rest, cur =>
    if pyIsSpace c then
      if cur.isEmpty then splitWsAux rest [] else cur.reverse :: splitWsAux rest []
    else splitWsAux rest (c :: cur)

/-- Python `str.split()` with no arguments: split on whitespace runs,
producing no empty tokens. -/
def pySplitWs (s : Str) : List Str := splitWsAux s []

/-- The relevance-scoring loop of `ConversationManager.search_messages`:
for each query word contained in the content, add 1, and add 2 more
whenever the full query phrase is contained in the content. -/
def searchScore (queryLower : Str) (queryWords : List Str) (contentLower : Str) : Nat :=
  queryWords.foldl
    (fun score w =>
      if strIn w contentLower then
        let score := score + 1
        if strIn queryLower contentLower then score + 2 else score
      else score) 0

/-- The result ordering of `search_messages`: sort key
`(score, timestamp)` descending (`reverse=True` on the stable sort). -/
def searchRel (x y : ConversationMessage × Nat) : Prop :=
  y.2 < x.2 ∨ (x.2 = y.2 ∧ y.1.timestamp ≤ x.1.timestamp)

instance : DecidableRel searchRel := fun x y =>
  inferInstanceAs (Decidable (y.2 < x.2 ∨ (x.2 = y.2 ∧ y.1.timestamp ≤ x.1.timestamp)))

instance : IsTrans (ConversationMessage × Nat) searchRel :=
  ⟨by
    intro a b c hab hbc
    unfold searchRel at *
    rcases hab with h | ⟨h1, h2⟩ <;> rcases hbc with h' | ⟨h1', h2'⟩ <;> omega⟩

instance : IsTotal (ConversationMessage × Nat) searchRel :=
  ⟨by
    intro a b
    unfold searchRel
    omega⟩

/-- `ConversationManager.search_messages(query, agent_type, message_type,
limit)`: filter, score, keep positive scores, sort by score then recency
(both descending, stability as in Python's sort), truncate. -/
def searchMessages (cm : ConversationManager) (query : Str)
    (agentFilter : Option AgentType) (typeFilter : Option MessageType) (lim : Nat) :
    List (ConversationMessage × Nat) :=
  let queryLower := pyLower query
  let queryWords := pySplitWs queryLower
  let results := cm.messages.filterMap (fun m =>
    if (match agentFilter with
        | some a => decide (m.agentType = some a)
        | none => true) &&
       (match typeFilter with
        | some mt => decide (m.messageType = mt)
        | none => true) then
      let score := searchScore queryLower queryWords (pyLower m.content)
      if score > 0 then some (m, score) else none
    else none)
  (List.insertionSort searchRel results).take lim

/-- The scoring loop computes matching-word count times 3 when the full
phrase is contained, and times 1 otherwise. -/
theorem searchScore_formula (ql : Str) (ws : List Str) (cl : Str) :
    searchScore ql ws cl =
      (ws.countP (fun w => strIn w cl)) * (if strIn ql cl then 3 else 1) := by
  have key : ∀ (ws' : List Str) (acc : Nat),
      ws'.foldl
        (fun score w =>
          if strIn w cl then
            let score := score + 1
            if strIn ql cl then score + 2 else score
          else score) acc
      = acc + (ws'.countP (fun w => strIn w cl)) * (if strIn ql cl then 3 else 1) := by
    intro ws'
    induction ws' with
    | nil => intro acc; simp
    | cons w rest ih =>
      intro acc
      simp only [List.foldl_cons]
      rw [ih]
      simp only [List.countP_cons]
      by_cases hw : strIn w cl <;> by_cases hq : strIn ql cl <;>
        simp [hw, hq] <;> omega
  simpa [searchScore] using key ws 0

/-- C9 amended: every result of the ledger search carries a score of
(matching query tokens) × 3 when the full query phrase occurs in the
content and (matching query tokens) × 1 otherwise — i.e. the +2 phrase
bonus is granted once per matching token, not once per query — and the
results are ordered by score descending with ties broken by recency. -/
theorem c9_search_scoring (cm : ConversationManager) (query : Str)
    (af : Option AgentType) (tf : Option MessageType) (lim : Nat) :
    (∀ p ∈ searchMessages cm query af tf lim,
      p.2 = ((pySplitWs (pyLower query)).countP
          (fun w => strIn w (pyLower p.1.content)))
        * (if strIn (pyLower query) (pyLower p.1.content) then 3 else 1)) ∧
    List.Sorted searchRel (searchMessages cm query af tf lim) := by
  constructor
  · intro p hp
    unfold searchMessages at hp
    have hp2 := List.mem_of_mem_take hp
    rw [(List.perm_insertionSort searchRel _).mem_iff] at hp2
    rcases List.mem_filterMap.mp hp2 with ⟨m, hm, heq⟩
    simp only [] at heq
    split_ifs at heq
    rcases Option.some.inj heq with rfl
    exact searchScore_formula (pyLower query) (pySplitWs (pyLower query))
      (pyLower m.content)
  · exact (List.sorted_insertionSort searchRel _).sublist (List.take_sublist _ _)

/-- A concrete message whose content is the two-token phrase `"a b"`. -/
def searchDemoMessage : ConversationMessage :=
  { id := "m1".data, role := .user, content := "a b".data, messageType := .review,
    timestamp := 5, agentType := none, parentId := none, childrenIds := [],
    metadata := [], turnNumber := 1, iteration := 0, isEdited := false,
    editTimestamp := none, editReason := none }

/-- A one-message manager for the search scenario. -/
def searchDemoManager : ConversationManager :=
  { sessionId := "s".data, messages := [searchDemoMessage], threads := [],
    currentThreadId := none, currentIteration := 0, currentTurn := 1 }

/-- C9 counterexample: query `"a b"` against content `"a b"` scores 6 in
the code (each of the two matching tokens receives the +2 phrase bonus),
while the claimed scoring (+1 per token plus a single +2 bonus) gives 4. -/
theorem c9_counterexample_phrase_bonus_per_token :
    searchMessages searchDemoManager "a b".data none none 20
      = [(searchDemoMessage, 6)] ∧
    (6 : Nat) ≠ 1 + 1 + 2 := by
  refine ⟨by decide, by decide⟩

/-- C9 amended, witnessed on the one-message manager. -/
theorem c9_search_witness :
    (searchDemoMessage, 6) ∈ searchMessages searchDemoManager "a b".data none none 20 ∧
    (6 : Nat) = ((pySplitWs (pyLower "a b".data)).countP
        (fun w => strIn w (pyLower searchDemoMessage.content)))
      * (if strIn (pyLower "a b".data) (pyLower searchDemoMessage.content) then 3 else 1) :=
  ⟨by decide,
    (c9_search_scoring searchDemoManager "a b".data none none 20).1
      (searchDemoMessage, 6) (by decide)⟩

end PromptGen
